import Mathlib

/-!
Verification development for the device-communication core of
`pyqt_light_controller.py` (class `LightControlThread` and the command-string
construction sites in the presentation layer).

Strings are modelled as `List Char`.  The Python string operations used by the
source (`str.strip`, `str.split` with a one-character separator, and the
substring test `pat in s`) are embedded as executable Lean functions with the
same semantics.  The stateful session (`connect_to_esp32`, `disconnect`,
`send_command`, and the background `run` loop) is embedded as explicit state
passing: each operation takes the current session state together with the
outcome of the socket I/O it performs and returns the new state, the list of
Qt signal emissions it produces, and its return value.
-/

namespace LightController

/-- Python whitespace for `str.strip()`: space, tab, newline, carriage return,
vertical tab, form feed. -/
def pyWS (c : Char) : Bool :=
  c == ' ' || c == '\t' || c == '\n' || c == '\r' || c == '\x0b' || c == '\x0c'

/-- Python `s.strip()`: drop whitespace from both ends. -/
def pyStrip (s : List Char) : List Char :=
  ((s.dropWhile pyWS).reverse.dropWhile pyWS).reverse

/-- Python `s.split(sep)` for a one-character separator: split on every
occurrence, keeping empty segments; `"".split(sep) = [""]`. -/
def pySplit (sep : Char) : List Char → List (List Char)
  | [] => [[]]
  | c :: cs =>
      if c = sep then [] :: pySplit sep cs
      else (c :: (pySplit sep cs).headD []) :: (pySplit sep cs).tail

/-- `listHasPrefix p s` is true when `p` is a prefix of `s`. -/
def listHasPrefix : List Char → List Char → Bool
  | [], _ => true
  | _ :: _, [] => false
  | p :: ps, c :: cs => p == c && listHasPrefix ps cs

/-- Python substring test `pat in s`: `pat` occurs contiguously in `s`. -/
def containsSub (pat : List Char) : List Char → Bool
  | [] => listHasPrefix pat []
  | c :: cs => listHasPrefix pat (c :: cs) || containsSub pat cs

/-- The literal token `ON`. -/
def chON : List Char := ['O', 'N']

/-- The literal token `OFF`. -/
def chOFF : List Char := ['O', 'F', 'F']

/-- One decoded light state, as carried by the `status_updated(str, bool)`
signal. -/
structure LightState where
  id : List Char
  isOn : Bool
deriving DecidableEq

/-- Generic order-preserving concat-map used to model the `for line in lines`
loop that may emit zero or one state per line. -/
def flatMapL {α β : Type} (f : α → List β) : List α → List β
  | [] => []
  | a :: l => f a ++ flatMapL f l

/-- The body of the `for line in lines` loop of
`LightControlThread.parse_status_response` (source lines 136–149): a line is
processed iff it contains `:` and the whole line contains `ON` or `OFF`;
`parts = line.split(':')`, the light-info field is `parts[0].strip()` (id is
the trimmed part before the first `(` when present), the status field is
`parts[1].strip()`, and `is_on = 'ON' in status`. -/
def parseStatusLine (line : List Char) : List LightState :=
  if (':' ∈ line) ∧ (containsSub chON line = true ∨ containsSub chOFF line = true) then
    let parts := pySplit ':' line
    if 2 ≤ parts.length then
      let light_info := pyStrip (parts.headD [])
      let status := pyStrip (parts.tail.headD [])
      let light_name :=
        if '(' ∈ light_info then pyStrip ((pySplit '(' light_info).headD [])
        else light_info
      [{ id := light_name, isOn := containsSub chON status }]
    else []
  else []

/-- `LightControlThread.parse_status_response` (source lines 133–149):
`lines = data.strip().split('\n')`, then the per-line loop, in line order. -/
def parse_status_response (data : List Char) : List LightState :=
  flatMapL parseStatusLine (pySplit '\n' (pyStrip data))

/-- Modelled from the spec: the value portion of a status line is the text
after the `:` separator.  Used only to state the spec side of the C2
qualification rule; the source checks the whole line instead. -/
def specValuePortion (line : List Char) : List Char :=
  List.intercalate [':'] ((pySplit ':' line).tail)

/-- Mutable state of a `LightControlThread` instance, as initialised in
`__init__` (source lines 57–63): `self.socket` (modelled by whether it is
non-`None`), `self.connected`, `self.host`, `self.port`, `self.running`. -/
structure SessionState where
  hasSocket : Bool
  connected : Bool
  host : List Char
  port : Nat
  running : Bool
deriving DecidableEq

/-- The state built by `__init__`: no socket, not connected, empty host,
port 8080, not running. -/
def initState : SessionState :=
  { hasSocket := false, connected := false, host := [], port := 8080, running := false }

/-- A session that is connected with the receive loop marked running, as left
by a fully successful `connect_to_esp32`. -/
def connState : SessionState :=
  { hasSocket := true, connected := true, host := [], port := 8080, running := true }

/-- One Qt signal emission of `LightControlThread`: `connection_changed(bool)`,
`status_updated(str, bool)`, or `message_received(str)`. -/
inductive Notification where
  | connectionChanged (connected : Bool)
  | statusUpdated (light : List Char) (isOn : Bool)
  | message (text : List Char)
deriving DecidableEq

/-- `LightControlThread.disconnect` (source lines 89–98): clear `running` and
`connected`, close the socket ignoring errors (the attribute itself is left
assigned), then emit `connection_changed(False)` and
`message_received("Disconnected")` — unconditionally, on every call. -/
def disconnect (s : SessionState) : SessionState × List Notification :=
  ({ s with running := false, connected := false },
   [Notification.connectionChanged false, Notification.message ("Disconnected".toList)])

/-- Result of one `send_command` call: final state, signal emissions, the byte
strings handed to `socket.send` (empty when no I/O was attempted), and the
Boolean return value. -/
structure SendResult where
  state : SessionState
  notes : List Notification
  sent : List (List Char)
  ret : Bool
deriving DecidableEq

/-- Outcome of the single `socket.send` call inside `send_command`. -/
inductive SendOutcome where
  | ok
  | err (e : List Char)
deriving DecidableEq

/-- `LightControlThread.send_command` (source lines 100–112): return `False`
with no I/O if `not self.connected or not self.socket`; otherwise send
`command + '\n'`; on success emit `Sent: {command}` and return `True`; on an
exception emit `Send error: {e}` and `connection_changed(False)`, clear
`connected`, and return `False`. -/
def send_command (s : SessionState) (command : List Char) (oc : SendOutcome) : SendResult :=
  if !s.connected || !s.hasSocket then
    { state := s, notes := [], sent := [], ret := false }
  else
    match oc with
    | SendOutcome.ok =>
        { state := s,
          notes := [Notification.message ("Sent: ".toList ++ command)],
          sent := [command ++ ['\n']],
          ret := true }
    | SendOutcome.err e =>
        { state := { s with connected := false },
          notes := [Notification.message ("Send error: ".toList ++ e),
                    Notification.connectionChanged false],
          sent := [command ++ ['\n']],
          ret := false }

/-- Result of one `connect_to_esp32` call: final state, signal emissions,
whether `self.start()` launched the receive loop, and the Boolean return
value. -/
structure ConnectResult where
  state : SessionState
  notes : List Notification
  loopStarted : Bool
  ret : Bool
deriving DecidableEq

/-- Outcome of the socket I/O inside `connect_to_esp32`: the `connect` call
fails, or `connect` succeeds and the welcome `recv` fails, or both succeed
yielding a welcome chunk.  Socket construction itself is assumed to succeed,
so `self.socket` is assigned in every case. -/
inductive ConnectOutcome where
  | connectFail (e : List Char)
  | welcomeFail (e : List Char)
  | ok (welcome : List Char)
deriving DecidableEq

/-- `LightControlThread.connect_to_esp32` (source lines 65–87): record
host/port, create the socket; on `connect` success set `connected` and
`running`, emit `connection_changed(True)`, read the welcome chunk, emit
`Connected: {welcome}`, start the loop, return `True`.  On any exception emit
`Connection failed: {e}` and `connection_changed(False)` and return `False` —
note the handler does not reset `connected`/`running`, so a failure during the
welcome `recv` leaves both flags set. -/
def connect_to_esp32 (s : SessionState) (host : List Char) (port : Nat)
    (oc : ConnectOutcome) : ConnectResult :=
  let s0 : SessionState := { s with host := host, port := port, hasSocket := true }
  match oc with
  | ConnectOutcome.connectFail e =>
      { state := s0,
        notes := [Notification.message ("Connection failed: ".toList ++ e),
                  Notification.connectionChanged false],
        loopStarted := false, ret := false }
  | ConnectOutcome.welcomeFail e =>
      { state := { s0 with connected := true, running := true },
        notes := [Notification.connectionChanged true,
                  Notification.message ("Connection failed: ".toList ++ e),
                  Notification.connectionChanged false],
        loopStarted := false, ret := false }
  | ConnectOutcome.ok welcome =>
      { state := { s0 with connected := true, running := true },
        notes := [Notification.connectionChanged true,
                  Notification.message ("Connected: ".toList ++ welcome)],
        loopStarted := true, ret := true }

/-- Outcome of the `recv` call inside one iteration of `run`: a timeout
(`socket.timeout`), a decoded data chunk (possibly empty — a zero-length read
decodes to the empty string), or any other exception. -/
inductive RecvOutcome where
  | timeout
  | data (d : List Char)
  | err (e : List Char)
deriving DecidableEq

/-- Result of one iteration of the `while` loop of `run`: either continue
looping or leave the loop, with the state and the emissions of that
iteration. -/
inductive StepResult where
  | loopAgain (s : SessionState) (notes : List Notification)
  | loopExit (s : SessionState) (notes : List Notification)
deriving DecidableEq

/-- The `status_updated` emissions produced by `parse_status_response`. -/
def statusNotes (d : List Char) : List Notification :=
  (parse_status_response d).map (fun st => Notification.statusUpdated st.id st.isOn)

/-- One iteration of `LightControlThread.run` (source lines 114–131): exit
silently when `running and connected` fails; when the socket is present,
`recv`; a timeout continues; non-empty data emits `Received: {data.strip()}`
plus the parsed status updates and continues; empty data fails the `if data:`
test and continues; any other exception emits `Receive error: {e}` and
`connection_changed(False)` and clears `connected` when `running` is still
set, then breaks. -/
def run_step (s : SessionState) (oc : RecvOutcome) : StepResult :=
  if s.running && s.connected then
    if s.hasSocket then
      match oc with
      | RecvOutcome.timeout => StepResult.loopAgain s []
      | RecvOutcome.data d =>
          if d = [] then StepResult.loopAgain s []
          else
            StepResult.loopAgain s
              (Notification.message ("Received: ".toList ++ pyStrip d) :: statusNotes d)
      | RecvOutcome.err e =>
          if s.running then
            StepResult.loopExit { s with connected := false }
              [Notification.message ("Receive error: ".toList ++ e),
               Notification.connectionChanged false]
          else StepResult.loopExit s []
    else StepResult.loopAgain s []
  else StepResult.loopExit s []

/-- Cumulative result of running the receive loop against a finite schedule of
`recv` outcomes: final state, all emissions in order, and whether the loop has
exited (`false` means it is still iterating when the schedule ends). -/
structure LoopResult where
  state : SessionState
  notes : List Notification
  exited : Bool
deriving DecidableEq

/-- Run the `while` loop of `run` against a finite schedule of `recv`
outcomes. -/
def runRecvLoop (s : SessionState) : List RecvOutcome → LoopResult
  | [] => { state := s, notes := [], exited := false }
  | oc :: rest =>
      match run_step s oc with
      | StepResult.loopAgain s' ns =>
          let r := runRecvLoop s' rest
          { state := r.state, notes := ns ++ r.notes, exited := r.exited }
      | StepResult.loopExit s' ns => { state := s', notes := ns, exited := true }

/-- Outbound command vocabulary of the wire protocol.  The source passes plain
strings; the constructors collect the distinct command shapes built by the
presentation layer. -/
inductive Command where
  | turnOn (id : List Char)
  | turnOff (id : List Char)
  | toggle (id : List Char)
  | allOn
  | allOff
  | queryStatus
deriving DecidableEq

/-- The light id carried by a command, when it has one. -/
def cmdId : Command → List Char
  | Command.turnOn i => i
  | Command.turnOff i => i
  | Command.toggle i => i
  | Command.allOn => []
  | Command.allOff => []
  | Command.queryStatus => []

/-- The command strings built by the presentation layer:
`ResponsiveLightWidget.send_command` constructs `f"{action} {light_name}"`
with action `ON`/`OFF`/`TOGGLE` (source lines 214–216 and 260–263), the global
buttons send `ALL_ON`/`ALL_OFF` (source lines 506–507), and
`refresh_status` sends `STATUS` (source line 802). -/
def encode : Command → List Char
  | Command.turnOn i => "ON ".toList ++ i
  | Command.turnOff i => "OFF ".toList ++ i
  | Command.toggle i => "TOGGLE ".toList ++ i
  | Command.allOn => "ALL_ON".toList
  | Command.allOff => "ALL_OFF".toList
  | Command.queryStatus => "STATUS".toList

/-! ## Helper lemmas -/

theorem pySplit_ne_nil (sep : Char) (l : List Char) : pySplit sep l ≠ [] := by
  cases l with
  | nil => simp [pySplit]
  | cons c cs => simp only [pySplit]; split <;> simp

theorem pySplit_no_sep {sep : Char} {l : List Char} (h : sep ∉ l) : pySplit sep l = [l] := by
  induction l with
  | nil => rfl
  | cons c cs ih =>
      have hc : ¬ c = sep := fun e => h (by simp [e])
      have hcs : sep ∉ cs := fun m => h (List.mem_cons_of_mem _ m)
      simp [pySplit, hc, ih hcs]

theorem pySplit_append (sep : Char) (x y : List Char) :
    pySplit sep (x ++ sep :: y) = pySplit sep x ++ pySplit sep y := by
  induction x with
  | nil => simp [pySplit]
  | cons a as ih =>
      by_cases ha : a = sep
      · simp [pySplit, ha, ih]
      · rcases hs : pySplit sep as with _ | ⟨p, ps⟩
        · exact absurd hs (pySplit_ne_nil sep as)
        · simp [pySplit, ha, ih, hs]

theorem two_le_length_pySplit {sep : Char} {l : List Char} (h : sep ∈ l) :
    2 ≤ (pySplit sep l).length := by
  induction l with
  | nil => cases h
  | cons c cs ih =>
      by_cases hc : c = sep
      · have h1 : 1 ≤ (pySplit sep cs).length :=
          List.length_pos.mpr (pySplit_ne_nil sep cs)
        simp only [pySplit, if_pos hc, List.length_cons]
        omega
      · have hm : sep ∈ cs := by
          rcases List.mem_cons.mp h with h' | h'
          · exact absurd h'.symm hc
          · exact h'
        rcases hs : pySplit sep cs with _ | ⟨p, ps⟩
        · exact absurd hs (pySplit_ne_nil sep cs)
        · have := ih hm
          rw [hs] at this
          simp only [pySplit, if_neg hc, hs, List.length_cons] at this ⊢
          simpa using this

theorem flatMapL_append {α β : Type} (f : α → List β) (l m : List α) :
    flatMapL f (l ++ m) = flatMapL f l ++ flatMapL f m := by
  induction l with
  | nil => rfl
  | cons a l ih => simp [flatMapL, ih]

theorem dropWhile_append_of_ne_nil {p : Char → Bool} {l : List Char}
    (h : l.dropWhile p ≠ []) (m : List Char) :
    (l ++ m).dropWhile p = l.dropWhile p ++ m := by
  induction l with
  | nil => simp at h
  | cons c cs ih =>
      by_cases hc : p c
      · rw [List.dropWhile_cons_of_pos hc] at h
        simp only [List.cons_append, List.dropWhile_cons_of_pos hc]
        exact ih h
      · simp [List.cons_append, List.dropWhile_cons_of_neg hc]

theorem dropWhile_append_of_nil {p : Char → Bool} {l : List Char}
    (h : l.dropWhile p = []) (m : List Char) :
    (l ++ m).dropWhile p = m.dropWhile p := by
  induction l with
  | nil => rfl
  | cons c cs ih =>
      by_cases hc : p c
      · rw [List.dropWhile_cons_of_pos hc] at h
        simp only [List.cons_append, List.dropWhile_cons_of_pos hc]
        exact ih h
      · rw [List.dropWhile_cons_of_neg hc] at h
        cases h

theorem length_dropWhile_le (p : Char → Bool) (l : List Char) :
    (l.dropWhile p).length ≤ l.length := by
  induction l with
  | nil => simp
  | cons c cs ih =>
      by_cases hc : p c
      · rw [List.dropWhile_cons_of_pos hc]
        exact Nat.le_trans ih (Nat.le_succ _)
      · rw [List.dropWhile_cons_of_neg hc]

theorem dropWhile_eq_self_of_length {p : Char → Bool} {l : List Char}
    (h : (l.dropWhile p).length = l.length) : l.dropWhile p = l := by
  induction l with
  | nil => rfl
  | cons c cs _ =>
      by_cases hc : p c
      · rw [List.dropWhile_cons_of_pos hc] at h
        have := length_dropWhile_le p cs
        simp [List.length_cons] at h
        omega
      · rw [List.dropWhile_cons_of_neg hc]

theorem pyStrip_self_left {s : List Char} (h : pyStrip s = s) :
    s.dropWhile pyWS = s := by
  have hlen : (pyStrip s).length = s.length := by rw [h]
  have h1 : (pyStrip s).length ≤ ((s.dropWhile pyWS).reverse.dropWhile pyWS).length := by
    rw [pyStrip, List.length_reverse]
  have h2 : ((s.dropWhile pyWS).reverse.dropWhile pyWS).length ≤ (s.dropWhile pyWS).length := by
    have := length_dropWhile_le pyWS (s.dropWhile pyWS).reverse
    simpa using this
  have h3 : (s.dropWhile pyWS).length ≤ s.length := length_dropWhile_le pyWS s
  exact dropWhile_eq_self_of_length (by omega)

theorem pyStrip_self_rev {s : List Char} (h : pyStrip s = s) :
    s.reverse.dropWhile pyWS = s.reverse := by
  have ha : s.dropWhile pyWS = s := pyStrip_self_left h
  have h' : pyStrip s = (s.reverse.dropWhile pyWS).reverse := by rw [pyStrip, ha]
  have : (s.reverse.dropWhile pyWS).reverse = s := by rw [← h', h]
  calc s.reverse.dropWhile pyWS = ((s.reverse.dropWhile pyWS).reverse).reverse := by
        rw [List.reverse_reverse]
    _ = s.reverse := by rw [this]

theorem pyStrip_append_newline (d : List Char) :
    pyStrip (d ++ ['\n']) = pyStrip d := by
  by_cases h : d.dropWhile pyWS = []
  · have h1 : (d ++ ['\n']).dropWhile pyWS = [] := by
      rw [dropWhile_append_of_nil h]
      decide
    rw [pyStrip, pyStrip, h, h1]
  · have h1 : (d ++ ['\n']).dropWhile pyWS = d.dropWhile pyWS ++ ['\n'] :=
      dropWhile_append_of_ne_nil h _
    rw [pyStrip, pyStrip, h1, List.reverse_append]
    have h2 : pyWS '\n' = true := by decide
    simp [List.dropWhile_cons_of_pos h2]

/-- Two chunks already stripped on both sides and nonempty, joined with a
`\n`, form a chunk that is still stripped. -/
theorem pyStrip_glue {a b : List Char} (ha : pyStrip a = a) (hb : pyStrip b = b)
    (hane : a ≠ []) (hbne : b ≠ []) :
    pyStrip (a ++ '\n' :: b) = a ++ '\n' :: b := by
  have hal : a.dropWhile pyWS = a := pyStrip_self_left ha
  have h1 : (a ++ '\n' :: b).dropWhile pyWS = a ++ '\n' :: b := by
    rw [dropWhile_append_of_ne_nil (by rw [hal]; exact hane), hal]
  have hbr : b.reverse.dropWhile pyWS = b.reverse := pyStrip_self_rev hb
  have hrev : (a ++ '\n' :: b).reverse = b.reverse ++ '\n' :: a.reverse := by
    simp [List.reverse_append]
  have h2 : ((a ++ '\n' :: b).reverse).dropWhile pyWS = (a ++ '\n' :: b).reverse := by
    rw [hrev, dropWhile_append_of_ne_nil (by rw [hbr]; simpa using hbne), hbr]
  rw [pyStrip, h1, h2, List.reverse_reverse]

theorem parse_status_response_nil : parse_status_response [] = [] := by decide

theorem parse_trailing_newline (d : List Char) :
    parse_status_response (d ++ ['\n']) = parse_status_response d := by
  rw [parse_status_response, parse_status_response, pyStrip_append_newline]

/-- Decoding distributes over the newline joining two stripped chunks. -/
theorem parse_glue {a b : List Char} (ha : pyStrip a = a) (hb : pyStrip b = b) :
    parse_status_response (a ++ '\n' :: b) =
      parse_status_response a ++ parse_status_response b := by
  by_cases hbne : b = []
  · subst hbne
    have he : a ++ '\n' :: ([] : List Char) = a ++ ['\n'] := rfl
    rw [he, parse_trailing_newline, parse_status_response_nil, List.append_nil]
  · by_cases hane : a = []
    · subst hane
      have h0 : ('\n' :: b).dropWhile pyWS = b := by
        rw [List.dropWhile_cons_of_pos (show pyWS '\n' = true by decide)]
        exact pyStrip_self_left hb
      have hstr : pyStrip ('\n' :: b) = b := by
        rw [pyStrip, h0, pyStrip_self_rev hb, List.reverse_reverse]
      rw [List.nil_append, parse_status_response, hstr, parse_status_response_nil,
        List.nil_append, parse_status_response, hb]
    · rw [parse_status_response, pyStrip_glue ha hb hane hbne, pySplit_append,
        flatMapL_append, parse_status_response, parse_status_response, ha, hb]

/-! ## Claims -/

/-- C1 (code bug evidence): in the receive loop, a zero-length read while the
session is running and connected falls through the `if data:` test: the state
is unchanged, nothing is emitted, and the loop continues — any number of
consecutive zero-length reads leaves the loop still iterating, never
transitioning to Disconnected and never exiting.  This contradicts the claim
that the loop marks Disconnected, notifies and exits on a zero-length read. -/
theorem C1_zero_length_read_loops :
    run_step connState (RecvOutcome.data []) = StepResult.loopAgain connState []
    ∧ ∀ n : Nat, runRecvLoop connState (List.replicate n (RecvOutcome.data [])) =
        { state := connState, notes := [], exited := false } := by
  have hstep : run_step connState (RecvOutcome.data []) = StepResult.loopAgain connState [] := by
    decide
  refine ⟨hstep, ?_⟩
  intro n
  induction n with
  | zero => rfl
  | succ k ih =>
      rw [List.replicate_succ]
      simp [runRecvLoop, hstep, ih]

/-- C2 (counterexample): the line `CONNECTED: ready` has no `ON`/`OFF` token
in its value portion (the text after the `:`), yet it yields a LightState,
because the source tests `'ON' in line` against the whole line and the token
occurs inside `CONNECTED`.  So qualification is not equivalent to the
value-portion test the claim states. -/
theorem C2_counterexample :
    ¬ (parseStatusLine ("CONNECTED: ready".toList) ≠ [] ↔
        (':' ∈ ("CONNECTED: ready".toList) ∧
         (containsSub chON (specValuePortion ("CONNECTED: ready".toList)) = true ∨
          containsSub chOFF (specValuePortion ("CONNECTED: ready".toList)) = true))) := by
  decide

/-- C2 (amended): a line yields a LightState iff it contains `:` and the
literal token `ON` or `OFF` occurs anywhere in the whole line — including
before the `:`. -/
theorem C2_line_qualification :
    ∀ line : List Char,
      parseStatusLine line ≠ [] ↔
        (':' ∈ line ∧ (containsSub chON line = true ∨ containsSub chOFF line = true)) := by
  intro line
  by_cases h1 : (':' ∈ line) ∧ (containsSub chON line = true ∨ containsSub chOFF line = true)
  · have h2 : 2 ≤ (pySplit ':' line).length := two_le_length_pySplit h1.1
    refine iff_of_true ?_ h1
    simp only [parseStatusLine, if_pos h1, if_pos h2]
    simp
  · refine iff_of_false ?_ h1
    simp only [parseStatusLine, if_neg h1]
    simp

/-- C3 (counterexample): after a first `disconnect`, a second `disconnect`
emits the full notification sequence again — it is not a no-op. -/
theorem C3_counterexample :
    (disconnect (disconnect connState).1).2 =
      [Notification.connectionChanged false, Notification.message ("Disconnected".toList)]
    ∧ (disconnect (disconnect connState).1).2 ≠ [] := by
  decide

/-- C3 (amended): `disconnect` is idempotent on the session state — a second
call is safe and leaves the state unchanged — but every call, including the
second, emits `connection_changed(False)` followed by the `Disconnected`
message, so the notification sequence is produced once per call rather than
at most once. -/
theorem C3_disconnect_idempotent_state :
    ∀ s : SessionState,
      (disconnect (disconnect s).1).1 = (disconnect s).1
      ∧ (disconnect s).2 = [Notification.connectionChanged false,
                            Notification.message ("Disconnected".toList)]
      ∧ (disconnect (disconnect s).1).2 = (disconnect s).2 := by
  intro s
  exact ⟨rfl, rfl, rfl⟩

/-- C4 (counterexample): a failure while reading the welcome chunk makes
`connect_to_esp32` return `False`, yet leaves `connected = true` and
`running = true` — the session does not end Disconnected as claimed. -/
theorem C4_counterexample :
    (connect_to_esp32 initState ("h".toList) 80
        (ConnectOutcome.welcomeFail ("timed out".toList))).ret = false
    ∧ (connect_to_esp32 initState ("h".toList) 80
        (ConnectOutcome.welcomeFail ("timed out".toList))).state.connected = true
    ∧ (connect_to_esp32 initState ("h".toList) 80
        (ConnectOutcome.welcomeFail ("timed out".toList))).state.running = true := by
  decide

/-- C4 (amended): for a failure of the socket `connect` itself (refused,
timeout, unreachable, DNS), starting from a session with both flags clear,
the session ends with `connected = false`, `running = false`, no receive loop
started, return `False`, and the failure notifications; but for a failure
while reading the welcome chunk, `connect_to_esp32` still returns `False`,
emits `connection_changed(False)` last and does not start the loop, yet
leaves `connected = true` and `running = true`. -/
theorem C4_connect_failure_behavior :
    ∀ (s : SessionState) (host : List Char) (port : Nat) (ea eb : List Char),
      s.connected = false → s.running = false →
      ((connect_to_esp32 s host port (ConnectOutcome.connectFail ea)).state.connected = false
       ∧ (connect_to_esp32 s host port (ConnectOutcome.connectFail ea)).state.running = false
       ∧ (connect_to_esp32 s host port (ConnectOutcome.connectFail ea)).loopStarted = false
       ∧ (connect_to_esp32 s host port (ConnectOutcome.connectFail ea)).ret = false
       ∧ (connect_to_esp32 s host port (ConnectOutcome.connectFail ea)).notes =
           [Notification.message ("Connection failed: ".toList ++ ea),
            Notification.connectionChanged false])
      ∧ ((connect_to_esp32 s host port (ConnectOutcome.welcomeFail eb)).ret = false
         ∧ (connect_to_esp32 s host port (ConnectOutcome.welcomeFail eb)).loopStarted = false
         ∧ (connect_to_esp32 s host port (ConnectOutcome.welcomeFail eb)).state.connected = true
         ∧ (connect_to_esp32 s host port (ConnectOutcome.welcomeFail eb)).state.running = true
         ∧ (connect_to_esp32 s host port (ConnectOutcome.welcomeFail eb)).notes =
             [Notification.connectionChanged true,
              Notification.message ("Connection failed: ".toList ++ eb),
              Notification.connectionChanged false]) := by
  intro s host port ea eb hc hr
  refine ⟨⟨?_, ?_, rfl, rfl, rfl⟩, rfl, rfl, rfl, rfl, rfl⟩
  · simpa [connect_to_esp32] using hc
  · simpa [connect_to_esp32] using hr

theorem C4_witness :
    initState.connected = false ∧ initState.running = false ∧
    (connect_to_esp32 initState ("h".toList) 80
        (ConnectOutcome.connectFail ("refused".toList))).state.connected = false :=
  ⟨by decide, by decide,
   (C4_connect_failure_behavior initState ("h".toList) 80 ("refused".toList)
      ("timed out".toList) (by decide) (by decide)).1.1⟩

/-- C5: `send_command` returns `False` with no socket I/O and no emissions
when the session is not connected; when connected (with a live socket), a
successful write returns `True` with the `Sent:` notification and the line
written, and a failed write clears `connected`, emits the error message and
`connection_changed(False)`, and returns `False`. -/
theorem C5_send_command_behavior :
    ∀ (s : SessionState) (cmd e : List Char) (oc : SendOutcome),
      (s.connected = false →
         send_command s cmd oc = { state := s, notes := [], sent := [], ret := false })
      ∧ (s.connected = true → s.hasSocket = true →
           send_command s cmd SendOutcome.ok =
             { state := s,
               notes := [Notification.message ("Sent: ".toList ++ cmd)],
               sent := [cmd ++ ['\n']], ret := true }
           ∧ ((send_command s cmd (SendOutcome.err e)).state.connected = false
              ∧ (send_command s cmd (SendOutcome.err e)).notes =
                  [Notification.message ("Send error: ".toList ++ e),
                   Notification.connectionChanged false]
              ∧ (send_command s cmd (SendOutcome.err e)).ret = false)) := by
  intro s cmd e oc
  constructor
  · intro h
    simp [send_command, h]
  · intro h1 h2
    refine ⟨by simp [send_command, h1, h2], ?_, ?_, ?_⟩ <;> simp [send_command, h1, h2]

theorem C5_witness :
    connState.connected = true ∧ connState.hasSocket = true ∧
    send_command connState ("STATUS".toList) SendOutcome.ok =
      { state := connState,
        notes := [Notification.message ("Sent: ".toList ++ "STATUS".toList)],
        sent := ["STATUS".toList ++ ['\n']], ret := true } :=
  ⟨by decide, by decide,
   ((C5_send_command_behavior connState ("STATUS".toList) ("broken pipe".toList)
      SendOutcome.ok).2 (by decide) (by decide)).1⟩

/-- C6 (counterexample): the chunk `light1: ON` has no newline terminator, so
its single (trailing, partial) line is unterminated, and it matches the
status-line shape; contrary to the claim it IS yielded as a LightState. -/
theorem C6_counterexample :
    ('\n' ∉ ("light1: ON".toList)) ∧
      parse_status_response ("light1: ON".toList) =
        [{ id := "light1".toList, isOn := true }] := by
  decide

/-- C6 (amended): the chunk is stripped of surrounding whitespace (which
removes a final newline) before splitting, so a trailing partial line is
processed exactly like a terminated one — appending a terminating newline
never changes the decoded output, and an unterminated matching line is
yielded. -/
theorem C6_trailing_partial_line :
    (∀ data : List Char,
        parse_status_response (data ++ ['\n']) = parse_status_response data)
    ∧ parse_status_response ("light1: ON".toList) =
        [{ id := "light1".toList, isOn := true }] :=
  ⟨parse_trailing_newline, by decide⟩

/-- C7: decoding the example chunk yields exactly the two states in line
order, with the id taken as the trimmed part before `(` for the first line
and the whole trimmed field for the second; moreover decoding distributes
over newline-joined stripped chunks, so output order always matches line
order. -/
theorem C7_decode_example_and_order :
    parse_status_response ("builtin (LED): ON\nlight1: OFF\n".toList) =
      [{ id := "builtin".toList, isOn := true }, { id := "light1".toList, isOn := false }]
    ∧ ∀ a b : List Char, pyStrip a = a → pyStrip b = b →
        parse_status_response (a ++ '\n' :: b) =
          parse_status_response a ++ parse_status_response b :=
  ⟨by decide, fun _ _ ha hb => parse_glue ha hb⟩

theorem C7_witness :
    pyStrip ("x: ON".toList) = "x: ON".toList ∧
    parse_status_response ("x: ON".toList ++ '\n' :: "y: OFF".toList) =
      parse_status_response ("x: ON".toList) ++ parse_status_response ("y: OFF".toList) :=
  ⟨by decide,
   C7_decode_example_and_order.2 ("x: ON".toList) ("y: OFF".toList) (by decide) (by decide)⟩

/-- C8: `status: ONLINE` decodes to `status` on (substring-match leniency:
`ON` occurs in `ONLINE`), a chunk with neither token decodes to nothing, and
in general the decoded `isOn` bit of any yielded state equals the substring
test of `ON` against the trimmed status field (`parts[1].strip()`). -/
theorem C8_substring_leniency :
    parse_status_response ("status: ONLINE\n".toList) =
      [{ id := "status".toList, isOn := true }]
    ∧ parse_status_response ("log: something happened\n".toList) = []
    ∧ ∀ (line : List Char) (st : LightState), parseStatusLine line = [st] →
        st.isOn = containsSub chON (pyStrip ((pySplit ':' line).tail.headD [])) := by
  refine ⟨by decide, by decide, ?_⟩
  intro line st h
  simp only [parseStatusLine] at h
  split_ifs at h with h1 h2 h3
  all_goals injection h with hh _
  all_goals subst hh
  all_goals rfl

theorem C8_witness :
    parseStatusLine ("status: ONLINE".toList) = [{ id := "status".toList, isOn := true }]
    ∧ ({ id := "status".toList, isOn := true } : LightState).isOn =
        containsSub chON (pyStrip ((pySplit ':' ("status: ONLINE".toList)).tail.headD [])) :=
  ⟨by decide,
   C8_substring_leniency.2.2 ("status: ONLINE".toList)
     { id := "status".toList, isOn := true } (by decide)⟩

/-- C9: the command strings built by the presentation layer are exactly the
literal wire strings of the protocol; whenever the light id contains no
newline the encoded command is a single line (no embedded newline, and the
transmitted line contains exactly one newline); and transmission appends
exactly one `\n` to the command before writing. -/
theorem C9_encode_wire :
    (∀ i : List Char, encode (Command.turnOn i) = "ON ".toList ++ i)
    ∧ (∀ i : List Char, encode (Command.turnOff i) = "OFF ".toList ++ i)
    ∧ (∀ i : List Char, encode (Command.toggle i) = "TOGGLE ".toList ++ i)
    ∧ encode Command.allOn = "ALL_ON".toList
    ∧ encode Command.allOff = "ALL_OFF".toList
    ∧ encode Command.queryStatus = "STATUS".toList
    ∧ (∀ c : Command, '\n' ∉ cmdId c →
         '\n' ∉ encode c ∧ (encode c ++ ['\n']).count '\n' = 1)
    ∧ (∀ (s : SessionState) (cmd : List Char), s.connected = true → s.hasSocket = true →
         (send_command s cmd SendOutcome.ok).sent = [cmd ++ ['\n']]) := by
  refine ⟨fun i => rfl, fun i => rfl, fun i => rfl, rfl, rfl, rfl, ?_, ?_⟩
  · intro c hc
    have hnot : '\n' ∉ encode c := by
      cases c with
      | turnOn i =>
          intro hmem
          rcases List.mem_append.mp hmem with h | h
          · exact absurd h (by decide)
          · exact hc h
      | turnOff i =>
          intro hmem
          rcases List.mem_append.mp hmem with h | h
          · exact absurd h (by decide)
          · exact hc h
      | toggle i =>
          intro hmem
          rcases List.mem_append.mp hmem with h | h
          · exact absurd h (by decide)
          · exact hc h
      | allOn => decide
      | allOff => decide
      | queryStatus => decide
    refine ⟨hnot, ?_⟩
    rw [List.count_append, List.count_eq_zero.mpr hnot]
    decide
  · intro s cmd h1 h2
    simp [send_command, h1, h2]

theorem C9_witness :
    ('\n' ∉ cmdId (Command.turnOn ("light1".toList)))
    ∧ ('\n' ∉ encode (Command.turnOn ("light1".toList)))
    ∧ (send_command connState ("STATUS".toList) SendOutcome.ok).sent =
        ["STATUS".toList ++ ['\n']] :=
  ⟨by decide,
   (C9_encode_wire.2.2.2.2.2.2.1 (Command.turnOn ("light1".toList)) (by decide)).1,
   C9_encode_wire.2.2.2.2.2.2.2 connState ("STATUS".toList) (by decide) (by decide)⟩

/-- C10: on a qualifying line with two `:` separators only the trimmed
segment between the first and the second `:` is the status field for `isOn`;
text after the second `:` is ignored for the bit, so `a: b: ON` decodes to
id `a` with `isOn = false`. -/
theorem C10_second_colon_field :
    parse_status_response ("a: b: ON\n".toList) = [{ id := "a".toList, isOn := false }]
    ∧ ∀ x y z : List Char, ':' ∉ x → ':' ∉ y →
        (containsSub chON (x ++ ':' :: (y ++ ':' :: z)) = true ∨
         containsSub chOFF (x ++ ':' :: (y ++ ':' :: z)) = true) →
        parseStatusLine (x ++ ':' :: (y ++ ':' :: z)) =
          [{ id := if '(' ∈ pyStrip x
                   then pyStrip ((pySplit '(' (pyStrip x)).headD [])
                   else pyStrip x,
             isOn := containsSub chON (pyStrip y) }] := by
  refine ⟨by decide, ?_⟩
  intro x y z hx hy hof
  have hparts : pySplit ':' (x ++ ':' :: (y ++ ':' :: z)) = x :: y :: pySplit ':' z := by
    rw [pySplit_append, pySplit_append, pySplit_no_sep hx, pySplit_no_sep hy]
    rfl
  have hmem : ':' ∈ x ++ ':' :: (y ++ ':' :: z) := by simp
  simp only [parseStatusLine, hparts, List.headD_cons, List.tail_cons]
  split_ifs with h1 h2 h3
  · rfl
  · rfl
  · exact absurd (by simp only [List.length_cons]; omega) h2
  · exact absurd ⟨hmem, hof⟩ h1

theorem C10_witness :
    (':' ∉ ("a".toList)) ∧
    parseStatusLine ("a".toList ++ ':' :: (" b".toList ++ ':' :: (" ON".toList))) =
      [{ id := if '(' ∈ pyStrip ("a".toList)
               then pyStrip ((pySplit '(' (pyStrip ("a".toList))).headD [])
               else pyStrip ("a".toList),
         isOn := containsSub chON (pyStrip (" b".toList)) }] :=
  ⟨by decide,
   C10_second_colon_field.2 ("a".toList) (" b".toList) (" ON".toList)
     (by decide) (by decide) (by decide)⟩

end LightController
